import Mathlib

/-
Verification of the Ban-Chess ("Bess") rules layer in src/BessBoard.py.

The file shallowly embeds the repository's code in Lean 4:
* pure data (moves, piece types, notation) becomes plain Lean data;
* the external chess engine that BessBoard subclasses is, following the
  spec's own scoping (sections 1 and 6), treated as a collaborator: its
  operations appear as explicit function parameters, and components of the
  spec that have no body under src/ (legal-move filtering, outcome
  classification, the game controller) are modelled from the spec's words,
  each marked by a doc comment beginning with "Modelled from the spec";
* Python exceptions become an explicit error type returned via Except.

Squares are naturals 0..63 and bitboards are naturals below 2^64, exactly
as in the int-based representation of the source.
-/

/-- Piece types of chess.PieceType. In the source these are the ints 1..6
(PAWN..KING); here they are an inductive with the same six values. -/
inductive PieceType where
  | pawn
  | knight
  | bishop
  | rook
  | queen
  | king
deriving DecidableEq, Fintype

/-- Embedding of chess.PIECE_TYPES, the list [PAWN, ..., KING]. -/
def PIECE_TYPES : List PieceType :=
  [.pawn, .knight, .bishop, .rook, .queen, .king]

/-- Lowercase letter of a piece type, as listed in chess.PIECE_SYMBOLS
(whose entry 0 is None and entries 1..6 are p,n,b,r,q,k). -/
def pieceSymbol : PieceType → Char
  | .pawn => 'p'
  | .knight => 'n'
  | .bishop => 'b'
  | .rook => 'r'
  | .queen => 'q'
  | .king => 'k'

/-- Embedding of chess.PIECE_SYMBOLS.index(c): the piece type whose
symbol is c, or none when c matches no entry (Python raises ValueError,
which the caller in src/BessBoard.py catches). The entry None at index 0
never matches a character, so it is omitted. -/
def pieceSymbolIndexOf (c : Char) : Option PieceType :=
  PIECE_TYPES.find? (fun t => pieceSymbol t == c)

/-- File letters a..h, as in chess.FILE_NAMES. -/
def FILE_NAMES : List Char := ['a', 'b', 'c', 'd', 'e', 'f', 'g', 'h']

/-- Rank digits 1..8, as in chess.RANK_NAMES. -/
def RANK_NAMES : List Char := ['1', '2', '3', '4', '5', '6', '7', '8']

/-- Algebraic name of square sq (file = sq mod 8, rank = sq div 8), as in
chess.square_name. -/
def squareName (sq : Nat) : String :=
  String.mk [FILE_NAMES.getD (sq % 8) '?', RANK_NAMES.getD (sq / 8) '?']

/-- Embedding of chess.SQUARE_NAMES: names of squares 0..63 in order. -/
def SQUARE_NAMES : List String := (List.range 64).map squareName

/-- Embedding of chess.SQUARE_NAMES.index(s): the square with name s, or
none when s is not a square name (Python raises ValueError, caught by the
caller in src/BessBoard.py). -/
def squareNamesIndexOf (s : String) : Option Nat :=
  SQUARE_NAMES.findIdx? (fun n => n == s)

/-- Python exceptions that the embedded code can surface: the
chess.InvalidMoveError raised explicitly by BessMove.from_uci, the
IndexError raised by out-of-range string indexing, the AttributeError
raised by reading a missing attribute, and the spec's IllegalMoveError
from GameController.apply (spec section 7). -/
inductive PyError where
  | invalidMove
  | indexError
  | attributeError
  | illegalMove
deriving DecidableEq

/-- Embedding of chess.Move as built by BessMove.move (src line 48):
from-square, to-square and an optional promotion. The drop field of
chess.Move is always None in this code and is omitted. -/
structure ChessMove where
  from_square : Nat
  to_square : Nat
  promotion : Option PieceType
deriving DecidableEq

/-- Embedding of the BessMove dataclass (src lines 10-20). The field
ban_piece is annotated chess.PieceType in the source, but BessMove.null
stores None in it, so it is an Option here; promotion and drop default to
None. -/
structure BessMove where
  from_square : Nat
  to_square : Nat
  ban_piece : Option PieceType
  promotion : Option PieceType
  drop : Option PieceType
deriving DecidableEq

/-- Embedding of BessMove.null (src lines 82-84): cls(0, 0, None). -/
def BessMove.null : BessMove :=
  { from_square := 0, to_square := 0, ban_piece := none,
    promotion := none, drop := none }

/-- Embedding of BessMove.move (src lines 47-48):
chess.Move(self.from_square, self.to_square, promotion=self.promotion). -/
def BessMove.move (m : BessMove) : ChessMove :=
  { from_square := m.from_square, to_square := m.to_square,
    promotion := m.promotion }

/-- Python truthiness of an int: nonzero. -/
def truthyNat (n : Nat) : Bool := n != 0

/-- Python truthiness of an Optional[chess.PieceType]: None is falsy and
every stored piece type (an int in 1..6, never 0) is truthy. -/
def truthyOptPiece : Option PieceType → Bool
  | none => false
  | some _ => true

/-- Embedding of BessMove.__bool__ (src lines 38-39):
bool(self.from_square or self.to_square or self.promotion or
self.ban_piece). The drop field does not appear in the chain. -/
def BessMove.toBool (m : BessMove) : Bool :=
  truthyNat m.from_square || truthyNat m.to_square ||
    truthyOptPiece m.promotion || truthyOptPiece m.ban_piece

/-- Embedding of BessMove.uci (src lines 22-36). The source's first line
evaluates self.move.promotion, but move is a method (src line 47) that is
never called here: in Python, reading the attribute promotion on the bound
method object raises AttributeError before any branch of the conditional
is reached, so uci fails on every BessMove, the null move included. -/
def BessMove.uci (_ : BessMove) : Except PyError String :=
  .error .attributeError

/-- Embedding of BessMove.from_uci (src lines 50-80), with Python's
evaluation order kept: for a 6-character string the colon is required at
index 5 (so the documented shape with the colon at index 4 is rejected)
and the ban letter is then read at index 6, which is past the end of the
string and raises IndexError — an exception the surrounding
except-ValueError clause does not catch; for a 7-character string the
colon is required at index 6 and the ban letter is read at index 7,
likewise out of range. Failed list lookups (ValueError) become the
explicitly raised chess.InvalidMoveError. -/
def BessMove.from_uci (uci : String) : Except PyError BessMove :=
  let cs := uci.toList
  if uci == "0000" then
    .ok BessMove.null
  else if cs.length == 6 && cs.getD 5 ' ' == ':' then
    match squareNamesIndexOf (String.mk (cs.take 2)) with
    | none => .error .invalidMove
    | some from_square =>
      match squareNamesIndexOf (String.mk ((cs.drop 2).take 2)) with
      | none => .error .invalidMove
      | some to_square =>
        match cs[6]? with
        | none => .error .indexError
        | some c6 =>
          match pieceSymbolIndexOf c6 with
          | none => .error .invalidMove
          | some ban_piece =>
            .ok { from_square := from_square, to_square := to_square,
                  ban_piece := some ban_piece, promotion := none,
                  drop := none }
  else if cs.length == 7 && cs.getD 6 ' ' == ':' then
    match squareNamesIndexOf (String.mk (cs.take 2)) with
    | none => .error .invalidMove
    | some from_square =>
      match squareNamesIndexOf (String.mk ((cs.drop 2).take 2)) with
      | none => .error .invalidMove
      | some to_square =>
        match pieceSymbolIndexOf (cs.getD 5 ' ') with
        | none => .error .invalidMove
        | some promotion =>
          match cs[7]? with
          | none => .error .indexError
          | some c7 =>
            match pieceSymbolIndexOf c7 with
            | none => .error .invalidMove
            | some ban_piece =>
              if from_square == to_square then .error .invalidMove
              else
                .ok { from_square := from_square, to_square := to_square,
                      ban_piece := some ban_piece,
                      promotion := some promotion, drop := none }
  else
    .error .invalidMove

/-- State owned by the inherited chess.Board: the six per-piece-type
bitboards and the side to move. Everything else the chess engine stores
(castling rights, en-passant square, occupancy, ...) is opaque to the ban
layer and not read by any code in src/BessBoard.py, so it is not
modelled. -/
structure ChessState where
  pawns : Nat
  knights : Nat
  bishops : Nat
  rooks : Nat
  queens : Nat
  kings : Nat
  turn : Bool
deriving DecidableEq

/-- Embedding of the BessBoard class state (src lines 87-90): the
inherited chess.Board state, the move stack (re-annotated in the source to
hold BessMoves), and the class's own current_ban field. -/
structure BessBoard where
  base : ChessState
  move_stack : List BessMove
  current_ban : Option PieceType
deriving DecidableEq

/-- Bitboard of the given piece type, i.e. the inherited self.pawns,
self.knights, ... attribute that src lines 101-106 read. -/
def typeBB (b : BessBoard) : PieceType → Nat
  | .pawn => b.base.pawns
  | .knight => b.base.knights
  | .bishop => b.base.bishops
  | .rook => b.base.rooks
  | .queen => b.base.queens
  | .king => b.base.kings

/-- Embedding of chess.BB_ALL, the full 64-bit mask. -/
def BB_ALL : Nat := 0xffffffffffffffff

/-- Inner double loop of BessBoard.generate_pseudo_legal_moves (src lines
124-126): one BessMove per piece type in chess.PIECE_TYPES, carrying the
underlying chess move's squares and promotion. -/
def expandBans (mv : ChessMove) : List BessMove :=
  PIECE_TYPES.map (fun piece =>
    { from_square := mv.from_square, to_square := mv.to_square,
      ban_piece := some piece, promotion := mv.promotion, drop := none })

/-- Embedding of BessBoard.generate_pseudo_legal_moves (src lines
100-126). The inherited generator super().generate_pseudo_legal_moves is
the collaborator parameter sg; the six calls intersect the from-mask with
the per-type bitboards, the banned type's list is left out of the chain,
and every remaining chess move is expanded to six BessMoves. -/
def BessBoard.generate_pseudo_legal_moves
    (sg : Nat → Nat → List ChessMove) (b : BessBoard)
    (from_mask to_mask : Nat) : List BessMove :=
  let pm := sg (Nat.land from_mask b.base.pawns) to_mask
  let nm := sg (Nat.land from_mask b.base.knights) to_mask
  let bm := sg (Nat.land from_mask b.base.bishops) to_mask
  let rm := sg (Nat.land from_mask b.base.rooks) to_mask
  let qm := sg (Nat.land from_mask b.base.queens) to_mask
  let km := sg (Nat.land from_mask b.base.kings) to_mask
  let moves : List ChessMove :=
    match b.current_ban with
    | some .pawn => nm ++ bm ++ rm ++ qm ++ km
    | some .knight => pm ++ bm ++ rm ++ qm ++ km
    | some .bishop => pm ++ nm ++ rm ++ qm ++ km
    | some .rook => pm ++ nm ++ bm ++ qm ++ km
    | some .queen => pm ++ nm ++ bm ++ rm ++ km
    | some .king => pm ++ nm ++ bm ++ rm ++ qm
    | none => pm ++ nm ++ bm ++ rm ++ qm ++ km
  moves.flatMap expandBans

/-- Embedding of BessBoard.gives_check (src lines 129-130):
super().gives_check(move.move()). The inherited check test, which closes
over the board state, is the collaborator parameter gc; it receives only
the chess.Move built by BessMove.move. -/
def BessBoard.gives_check (gc : ChessMove → Bool) (m : BessMove) : Bool :=
  gc m.move

/-- Embedding of BessBoard.reset (src lines 92-94): current_ban is set to
None and then super().reset() runs. The inherited reset, which
reinitialises the chess state and clears the move stack but never touches
current_ban (chess.Board does not know the field), is the collaborator
parameter sr acting on the parts it owns. -/
def BessBoard.reset (sr : ChessState → List BessMove → ChessState × List BessMove)
    (b : BessBoard) : BessBoard :=
  let p := sr b.base b.move_stack
  { base := p.1, move_stack := p.2, current_ban := none }

/-- Embedding of BessBoard.clear (src lines 96-98): current_ban is set to
None and then super().clear() runs, with the inherited clear as the
collaborator parameter sc. -/
def BessBoard.clear (sc : ChessState → List BessMove → ChessState × List BessMove)
    (b : BessBoard) : BessBoard :=
  let p := sc b.base b.move_stack
  { base := p.1, move_stack := p.2, current_ban := none }

/-- Modelled from the spec: generate_legal (spec section 4.3). The
inherited chess.Board.generate_legal_moves that LegalBessMoveGenerator
(src lines 140-145) delegates to has no body under src/, so it is modelled
from the spec's words: the subset of generate_pseudo whose underlying
chess move leaves the mover's own king not attacked afterward, the safety
test sf being delegated to the collaborator and applied to the move's
board-affecting component only. -/
def BessBoard.generate_legal_moves
    (sg : Nat → Nat → List ChessMove) (sf : ChessMove → Bool)
    (b : BessBoard) : List BessMove :=
  (b.generate_pseudo_legal_moves sg BB_ALL BB_ALL).filter
    (fun m => sf m.move)

/-- Modelled from the spec: GameEvaluator.check (spec section 4.4) — true
iff the side to move's king square is attacked, queried from the
collaborator ka; no body for it exists under src/. -/
def GameEvaluator.check (ka : Bool → Bool) (b : BessBoard) : Bool :=
  ka b.base.turn

/-- Game status values of the spec's GameEvaluator.outcome. -/
inductive Outcome where
  | CONTINUE
  | CHECKMATE (side : Bool)
  | STALEMATE
deriving DecidableEq

/-- Modelled from the spec: GameEvaluator.outcome (spec section 4.4) — no
body for it exists under src/. CHECKMATE (of the side to move) iff check
holds and the legal-move set is empty; STALEMATE iff check fails and the
legal-move set is empty; otherwise CONTINUE. -/
def GameEvaluator.outcome (sg : Nat → Nat → List ChessMove)
    (sf : ChessMove → Bool) (ka : Bool → Bool) (b : BessBoard) : Outcome :=
  if (b.generate_legal_moves sg sf).isEmpty then
    if GameEvaluator.check ka b then .CHECKMATE b.base.turn else .STALEMATE
  else
    .CONTINUE

/-- Modelled from the spec: GameController.apply (spec section 4.5) — no
body for it exists under src/. It requires the move to be in the
legal-move set, else fails with IllegalMoveError; otherwise it applies the
underlying chess move via the collaborator ac, flips the side to move,
sets current_ban to the move's ban_piece, and appends the move to the ply
history. -/
def GameController.apply (sg : Nat → Nat → List ChessMove)
    (sf : ChessMove → Bool) (ac : ChessState → ChessMove → ChessState)
    (b : BessBoard) (m : BessMove) : Except PyError BessBoard :=
  if m ∈ b.generate_legal_moves sg sf then
    let s := ac b.base m.move
    .ok { base := { s with turn := !b.base.turn },
          move_stack := b.move_stack ++ [m],
          current_ban := m.ban_piece }
  else
    .error .illegalMove

/-- Piece types the source's chain at src lines 109-122 keeps: all six
types except the banned one, in the source's order. Stated as a filter of
chess.PIECE_TYPES; the equality with the source's literal six-way match is
proved in generate_pseudo_eq below. -/
def allowedTypes (ban : Option PieceType) : List PieceType :=
  PIECE_TYPES.filter (fun u => decide (some u ≠ ban))

/-- Whether the square sq carries a piece of the currently banned type:
false when current_ban is none, else the banned type's bitboard bit. -/
def banBit (b : BessBoard) (sq : Nat) : Bool :=
  match b.current_ban with
  | none => false
  | some t => (typeBB b t).testBit sq

/-- Modelled from the spec: the collaborator's pseudo-legal chess moves in
the standard start position (spec section 8: "standard chess has 20
pseudo-legal opening moves") — the sixteen single and double pawn pushes
and the four knight moves; per-piece movement generation itself is
excluded from the core (spec sections 1 and 6). Squares use the a1=0,
h8=63 numbering. -/
def startChessMoves : List ChessMove :=
  [ { from_square := 8, to_square := 16, promotion := none },
    { from_square := 8, to_square := 24, promotion := none },
    { from_square := 9, to_square := 17, promotion := none },
    { from_square := 9, to_square := 25, promotion := none },
    { from_square := 10, to_square := 18, promotion := none },
    { from_square := 10, to_square := 26, promotion := none },
    { from_square := 11, to_square := 19, promotion := none },
    { from_square := 11, to_square := 27, promotion := none },
    { from_square := 12, to_square := 20, promotion := none },
    { from_square := 12, to_square := 28, promotion := none },
    { from_square := 13, to_square := 21, promotion := none },
    { from_square := 13, to_square := 29, promotion := none },
    { from_square := 14, to_square := 22, promotion := none },
    { from_square := 14, to_square := 30, promotion := none },
    { from_square := 15, to_square := 23, promotion := none },
    { from_square := 15, to_square := 31, promotion := none },
    { from_square := 1, to_square := 16, promotion := none },
    { from_square := 1, to_square := 18, promotion := none },
    { from_square := 6, to_square := 21, promotion := none },
    { from_square := 6, to_square := 23, promotion := none } ]

/-- Chess state of the standard start position: the usual piece bitboards
and White to move, as chess.Board() initialises them. -/
def startBase : ChessState :=
  { pawns := 0x00ff00000000ff00,
    knights := 0x4200000000000042,
    bishops := 0x2400000000000024,
    rooks := 0x8100000000000081,
    queens := 0x0800000000000008,
    kings := 0x1000000000000010,
    turn := true }

/-- BessBoard at the game start: start chess state, empty history, no ban
(spec section 3: current_ban is none only at game start). -/
def startBoard : BessBoard :=
  { base := startBase, move_stack := [], current_ban := none }

/-- Modelled from the spec: the collaborator generator for the start
position — the 20 opening moves, restricted to the given from-mask (the
inherited generator only emits moves whose origin lies in from_mask). The
to-mask is irrelevant here since no opening move is masked by it. -/
def startCollab (fm : Nat) (_tm : Nat) : List ChessMove :=
  startChessMoves.filter (fun mv => fm.testBit mv.from_square)

/-- Start board with knights banned for the side to move, as after the
opponent announced a knight ban. -/
def knightBanBoard : BessBoard :=
  { base := startBase, move_stack := [], current_ban := some .knight }

/-- Chess state with only the two kings on the board (e1 and e4 squares
e1=4, e8=60), White to move: every piece bitboard other than the kings is
empty. -/
def kingsOnlyBase : ChessState :=
  { pawns := 0, knights := 0, bishops := 0, rooks := 0, queens := 0,
    kings := 0x1000000000000010, turn := true }

/-- Kings-only board on which the mover's king is banned: the
stalemate-by-ban scenario of spec section 8. -/
def kingBanBoard : BessBoard :=
  { base := kingsOnlyBase, move_stack := [], current_ban := some .king }

/-- Modelled from the spec: collaborator generator for the kings-only
state — the white king on e1 has chess moves (d1, f1, d2, e2, f2), so
only the king owns any pseudo-legal chess move there. -/
def kingsOnlyCollab (fm : Nat) (_tm : Nat) : List ChessMove :=
  ([ { from_square := 4, to_square := 3, promotion := none },
     { from_square := 4, to_square := 5, promotion := none },
     { from_square := 4, to_square := 11, promotion := none },
     { from_square := 4, to_square := 12, promotion := none },
     { from_square := 4, to_square := 13, promotion := none } ] :
    List ChessMove).filter (fun mv => fm.testBit mv.from_square)

/-- The move e2-e4 announcing a knight ban, i.e. the BanMove of the spec's
ban-propagation scenario (e2 = square 12, e4 = square 28). -/
def e2e4KnightBan : BessMove :=
  { from_square := 12, to_square := 28, ban_piece := some .knight,
    promotion := none, drop := none }

/-- C3: the claimed encode/decode round-trip fails on the code. Encoding
raises AttributeError on every move — the null move included — because
src line 31 reads the promotion attribute of the uncalled method move;
and decoding rejects even the 7-character example of the source's own
docstring, a7a8q:n, because src line 68 requires the colon at index 6
where that shape has the ban letter. -/
theorem roundtrip_broken :
    BessMove.uci BessMove.null = .error .attributeError ∧
    BessMove.uci { from_square := 48, to_square := 56,
                   ban_piece := some .knight, promotion := none,
                   drop := none } = .error .attributeError ∧
    BessMove.from_uci "a7a8q:n" = .error .invalidMove :=
  ⟨rfl, rfl, rfl⟩

/-- C6: decode does not accept the documented 6-character shape — a7a8:n,
the docstring's own example, is rejected because src line 60 requires the
colon at index 5 — and it can fail with IndexError rather than the
notation error: e2e4n: passes the colon test and then src line 64 reads
index 6 of a 6-character string, an IndexError the except-ValueError
clause does not catch. -/
theorem decode_error_taxonomy :
    BessMove.from_uci "a7a8:n" = .error .invalidMove ∧
    BessMove.from_uci "e2e4n:" = .error .indexError :=
  ⟨rfl, rfl⟩

/-- C7: of the codec scenario only the null-move decode works. decode of
0000 returns the null move as claimed, but decode of e2e4:n fails with
InvalidMoveError (the colon is tested at index 5, src line 60) instead of
returning the e2-e4 knight-ban move, and encode fails with AttributeError
on that move and on the null move alike (src line 31). -/
theorem codec_scenario_behavior :
    BessMove.from_uci "0000" = .ok BessMove.null ∧
    BessMove.from_uci "e2e4:n" = .error .invalidMove ∧
    BessMove.uci e2e4KnightBan = .error .attributeError ∧
    BessMove.uci BessMove.null = .error .attributeError :=
  ⟨rfl, rfl, rfl, rfl⟩

/-- C8: gives_check ignores the ban annotation — for any inherited check
test and any two BessMoves agreeing on from-square, to-square and
promotion, the result is the same, because the test only receives the
chess.Move built by BessMove.move. -/
theorem gives_check_ban_blind (gc : ChessMove → Bool) (m1 m2 : BessMove)
    (h1 : m1.from_square = m2.from_square)
    (h2 : m1.to_square = m2.to_square)
    (h3 : m1.promotion = m2.promotion) :
    BessBoard.gives_check gc m1 = BessBoard.gives_check gc m2 := by
  unfold BessBoard.gives_check BessMove.move
  rw [h1, h2, h3]

/-- Witness for C8: the e2-e4 knight-ban move and the same chess move
carrying a queen ban get the same check verdict. -/
theorem gives_check_ban_blind_witness :
    BessBoard.gives_check (fun mv => mv.to_square == 28) e2e4KnightBan =
      BessBoard.gives_check (fun mv => mv.to_square == 28)
        { from_square := 12, to_square := 28, ban_piece := some .queen,
          promotion := none, drop := none } :=
  gives_check_ban_blind _ _ _ rfl rfl rfl

/-- C9: reset and clear both leave the board in the no-ban state, while
the inherited reinitialisation acts on the chess state and move stack
exactly as the inherited method does. -/
theorem reset_clear_ban_state :
    ∀ (sr sc : ChessState → List BessMove → ChessState × List BessMove)
      (b : BessBoard),
      (b.reset sr).current_ban = none ∧
      (b.reset sr).base = (sr b.base b.move_stack).1 ∧
      (b.reset sr).move_stack = (sr b.base b.move_stack).2 ∧
      (b.clear sc).current_ban = none ∧
      (b.clear sc).base = (sc b.base b.move_stack).1 ∧
      (b.clear sc).move_stack = (sc b.base b.move_stack).2 :=
  fun _ _ _ => ⟨rfl, rfl, rfl, rfl, rfl, rfl⟩

/-- C10: a BessMove is falsy exactly when both squares are 0 and both the
promotion and the ban are none; the null move is falsy; and any move
carrying one of the six piece types as its ban is truthy even with both
squares 0. -/
theorem bool_null_move_characterisation :
    (∀ m : BessMove, m.toBool = false ↔
       (m.from_square = 0 ∧ m.to_square = 0 ∧ m.promotion = none ∧
        m.ban_piece = none)) ∧
    BessMove.null.toBool = false ∧
    (∀ t : PieceType,
       (BessMove.mk 0 0 (some t) none none).toBool = true) := by
  refine ⟨fun m => ?_, rfl, fun t => rfl⟩
  obtain ⟨f, t, b, p, d⟩ := m
  cases p <;> cases b <;>
    simp [BessMove.toBool, truthyNat, truthyOptPiece]

/-- C2: a legal move applies successfully, and the resulting position's
current_ban is the move's ban_piece while the side to move is flipped —
the restriction now binds the opponent. -/
theorem apply_sets_ban (sg : Nat → Nat → List ChessMove)
    (sf : ChessMove → Bool) (ac : ChessState → ChessMove → ChessState)
    (b : BessBoard) (m : BessMove)
    (h : m ∈ b.generate_legal_moves sg sf) :
    (GameController.apply sg sf ac b m).map
        (fun p => (p.current_ban, p.base.turn)) =
      .ok (m.ban_piece, !b.base.turn) := by
  unfold GameController.apply
  rw [if_pos h]
  rfl

/-- Witness for C2: applying the e2-e4 knight-ban move to the start
position yields a position whose current_ban is KNIGHT and whose side to
move is Black. -/
theorem apply_sets_ban_witness :
    (GameController.apply startCollab (fun _ => true) (fun s _ => s)
        startBoard e2e4KnightBan).map
        (fun p => (p.current_ban, p.base.turn)) =
      .ok (some PieceType.knight, false) :=
  apply_sets_ban startCollab (fun _ => true) (fun s _ => s) startBoard
    e2e4KnightBan (by decide)

/-- Bit of a conjunction of bitboards, phrased for Nat.land. -/
theorem testBit_land_eq (a c i : Nat) :
    (Nat.land a c).testBit i = (a.testBit i && c.testBit i) :=
  Nat.testBit_land ..

/-- Reformulation of the source's six-way chain (src lines 109-122): the
kept chess-move lists are exactly those of the piece types other than the
banned one, in the source's order. -/
theorem generate_pseudo_eq (sg : Nat → Nat → List ChessMove) (b : BessBoard)
    (fm tm : Nat) :
    b.generate_pseudo_legal_moves sg fm tm =
      ((allowedTypes b.current_ban).flatMap
        (fun u => sg (Nat.land fm (typeBB b u)) tm)).flatMap expandBans := by
  unfold BessBoard.generate_pseudo_legal_moves allowedTypes typeBB
  cases hb : b.current_ban with
  | none => simp [PIECE_TYPES]
  | some t => cases t <;> simp [PIECE_TYPES]

/-- Each underlying chess move expands to exactly six BessMoves, so the
expansion multiplies the list length by six. -/
theorem length_flatMap_expandBans (l : List ChessMove) :
    (l.flatMap expandBans).length = 6 * l.length := by
  induction l with
  | nil => rfl
  | cons a l ih =>
    have h6 : (expandBans a).length = 6 := rfl
    simp only [List.flatMap_cons, List.length_append, ih, h6,
      List.length_cons]
    omega

/-- Sums over a list distribute over pointwise addition. -/
theorem sum_map_add (f g : α → Nat) (l : List α) :
    (l.map (fun x => f x + g x)).sum = (l.map f).sum + (l.map g).sum := by
  induction l with
  | nil => rfl
  | cons a l ih =>
    simp only [List.map_cons, List.sum_cons, ih]
    omega

/-- Counting by a predicate is the sum of its indicator. -/
theorem sum_map_ite_one (p : α → Bool) (l : List α) :
    (l.map (fun x => if p x then 1 else 0)).sum = l.countP p := by
  induction l with
  | nil => rfl
  | cons a l ih =>
    simp only [List.map_cons, List.sum_cons, List.countP_cons, ih]
    cases hpa : p a <;> simp [hpa]
    omega

/-- Double counting: summing per-row match counts equals summing
per-column match counts. -/
theorem sum_countP_comm (L : List α) (M : List β) (p : α → β → Bool) :
    (L.map (fun u => M.countP (p u))).sum =
      (M.map (fun mv => L.countP (fun u => p u mv))).sum := by
  induction L with
  | nil => simp [List.countP_nil]
  | cons a L ih =>
    simp only [List.map_cons, List.sum_cons, ih]
    rw [show (fun mv => (a :: L).countP (fun u => p u mv)) =
        (fun mv => (if p a mv then 1 else 0) +
          L.countP (fun u => p u mv)) from
      funext fun mv => by rw [List.countP_cons]; omega]
    rw [sum_map_add, sum_map_ite_one]

/-- Length of a flat-map of filters of a fixed list, as a sum of counts. -/
theorem length_flatMap_filter (L : List α) (M : List β) (p : α → β → Bool) :
    (L.flatMap (fun a => M.filter (p a))).length =
      (L.map (fun a => M.countP (p a))).sum := by
  induction L with
  | nil => rfl
  | cons a L ih =>
    simp [List.flatMap_cons, ih, ← List.countP_eq_length_filter]

/-- When square s carries exactly one piece type u0, the allowed-type list
matches s once if u0 is not banned and zero times if it is. -/
theorem countP_allowed_of_unique (b : BessBoard) (s : Nat) (u0 : PieceType)
    (hu0 : (typeBB b u0).testBit s = true)
    (huniq : ∀ u : PieceType, (typeBB b u).testBit s = true → u = u0) :
    (allowedTypes b.current_ban).countP
        (fun u => (typeBB b u).testBit s) =
      if banBit b s then 0 else 1 := by
  have hval : ∀ u : PieceType, (typeBB b u).testBit s = decide (u = u0) := by
    intro u
    by_cases h : u = u0
    · subst h; simp [hu0]
    · cases htu : (typeBB b u).testBit s with
      | false => simp [h]
      | true => exact absurd (huniq u htu) h
  have hcp : (allowedTypes b.current_ban).countP
        (fun u => (typeBB b u).testBit s) =
      (allowedTypes b.current_ban).countP (fun u => decide (u = u0)) :=
    List.countP_congr (fun u _ => by rw [hval u])
  rw [hcp]
  rcases hb : b.current_ban with _ | t
  · have hbb : banBit b s = false := by simp [banBit, hb]
    rw [hbb]
    cases u0 <;> decide
  · have hbb : banBit b s = (typeBB b t).testBit s := by simp [banBit, hb]
    rw [hbb, hval t]
    cases t <;> cases u0 <;> decide

/-- The start-position collaborator applied to the full mask returns all
20 opening moves. -/
theorem startCollab_full : startCollab BB_ALL BB_ALL = startChessMoves := by
  decide

/-- The start-position collaborator restricts by the from-mask exactly as
the mask-filter law requires. -/
theorem startCollab_hgen : ∀ fm, startCollab fm BB_ALL =
    (startCollab BB_ALL BB_ALL).filter
      (fun mv => fm.testBit mv.from_square) := by
  intro fm
  rw [startCollab_full]
  rfl

/-- Every move the start-position collaborator emits originates inside
the requested from-mask. -/
theorem startCollab_mask : ∀ fm tm mv, mv ∈ startCollab fm tm →
    fm.testBit mv.from_square = true :=
  fun _ _ _ h => (List.mem_filter.mp h).2

set_option maxRecDepth 8192 in
/-- C1: the pseudo-legal Ban-move list is six times the pseudo-legal
chess moves of the non-banned piece types. Stated for every board whose
collaborator generator restricts by the from-mask as a filter of the full
list, whose piece-type bitboards are pairwise disjoint, and whose
generated moves all originate on a typed piece; and, concretely, the
start position with no ban yields exactly 120 moves. -/
theorem branching_factor :
    (∀ (sg : Nat → Nat → List ChessMove) (b : BessBoard),
       (∀ fm, sg fm BB_ALL =
          (sg BB_ALL BB_ALL).filter (fun mv => fm.testBit mv.from_square)) →
       (∀ u v : PieceType, u ≠ v →
          Nat.land (typeBB b u) (typeBB b v) = 0) →
       (∀ mv ∈ sg BB_ALL BB_ALL, ∃ u : PieceType,
          (typeBB b u).testBit mv.from_square = true) →
       (b.generate_pseudo_legal_moves sg BB_ALL BB_ALL).length =
         6 * ((sg BB_ALL BB_ALL).filter
              (fun mv => ! banBit b mv.from_square)).length) ∧
    (startBoard.generate_pseudo_legal_moves startCollab BB_ALL
        BB_ALL).length = 120 := by
  constructor
  · intro sg b hgen hdisj hcov
    have hmem : ∀ mv ∈ sg BB_ALL BB_ALL,
        BB_ALL.testBit mv.from_square = true :=
      List.filter_eq_self.mp (hgen BB_ALL).symm
    rw [generate_pseudo_eq, length_flatMap_expandBans]
    congr 1
    rw [show (fun u => sg (Nat.land BB_ALL (typeBB b u)) BB_ALL) =
        (fun u => (sg BB_ALL BB_ALL).filter
          (fun mv => (Nat.land BB_ALL (typeBB b u)).testBit mv.from_square))
      from funext fun u => hgen _]
    rw [length_flatMap_filter, sum_countP_comm,
      ← List.countP_eq_length_filter, ← sum_map_ite_one]
    apply congrArg
    apply List.map_congr_left
    intro mv hmv
    obtain ⟨u0, hu0⟩ := hcov mv hmv
    have huniq : ∀ u, (typeBB b u).testBit mv.from_square = true →
        u = u0 := by
      intro u hu
      by_contra hne
      have h0 := hdisj u u0 hne
      have hland : (Nat.land (typeBB b u) (typeBB b u0)).testBit
          mv.from_square = true := by
        rw [testBit_land_eq, hu, hu0]; rfl
      rw [h0] at hland
      simp [Nat.zero_testBit] at hland
    rw [show (fun u => (Nat.land BB_ALL (typeBB b u)).testBit
          mv.from_square) =
        (fun u => (typeBB b u).testBit mv.from_square) from
      funext fun u => by
        rw [testBit_land_eq, hmem mv hmv, Bool.true_and]]
    rw [countP_allowed_of_unique b mv.from_square u0 hu0 huniq]
    cases hbb : banBit b mv.from_square <;> simp [hbb]
  · decide

/-- Witness for C1: at the start position the general branching law holds
of the concrete collaborator and board. -/
theorem branching_factor_witness :
    (startBoard.generate_pseudo_legal_moves startCollab BB_ALL
        BB_ALL).length =
      6 * ((startCollab BB_ALL BB_ALL).filter
           (fun mv => ! banBit startBoard mv.from_square)).length :=
  branching_factor.1 startCollab startBoard startCollab_hgen (by decide)
    (by decide)

/-- C4: when a ban is in force, no legal Ban-move originates from a
square of the banned type's bitboard, for any collaborator generator that
respects its from-mask and any board with pairwise-disjoint piece-type
bitboards — in particular independently of whether the side to move is in
check, since the safety test sf is arbitrary here. -/
theorem ban_exclusion (sg : Nat → Nat → List ChessMove)
    (sf : ChessMove → Bool) (b : BessBoard) (t : PieceType)
    (hban : b.current_ban = some t)
    (hmask : ∀ fm tm mv, mv ∈ sg fm tm → fm.testBit mv.from_square = true)
    (hdisj : ∀ u v : PieceType, u ≠ v →
       Nat.land (typeBB b u) (typeBB b v) = 0) :
    (b.generate_legal_moves sg sf).all
      (fun m => ! (typeBB b t).testBit m.from_square) = true := by
  rw [List.all_eq_true]
  intro m hm
  unfold BessBoard.generate_legal_moves at hm
  have hm1 : m ∈ b.generate_pseudo_legal_moves sg BB_ALL BB_ALL :=
    (List.mem_filter.mp hm).1
  rw [generate_pseudo_eq] at hm1
  obtain ⟨mv, hmv, hmmv⟩ := List.mem_flatMap.mp hm1
  obtain ⟨u, hu, hmvu⟩ := List.mem_flatMap.mp hmv
  obtain ⟨piece, hpiece, hmk⟩ := List.mem_map.mp hmmv
  have hfrom : m.from_square = mv.from_square := by rw [← hmk]
  have hut : u ≠ t := by
    have h1 := List.mem_filter.mp hu
    have h2 := of_decide_eq_true h1.2
    rw [hban] at h2
    intro he
    exact h2 (by rw [he])
  have hbit := hmask _ _ _ hmvu
  rw [testBit_land_eq] at hbit
  have hbu : (typeBB b u).testBit mv.from_square = true := by
    simp only [Bool.and_eq_true] at hbit
    exact hbit.2
  show (! (typeBB b t).testBit m.from_square) = true
  rw [hfrom]
  cases hbt : (typeBB b t).testBit mv.from_square with
  | false => rfl
  | true =>
    exfalso
    have h0 := hdisj u t hut
    have hland : (Nat.land (typeBB b u) (typeBB b t)).testBit
        mv.from_square = true := by
      rw [testBit_land_eq, hbu, hbt]; rfl
    rw [h0] at hland
    simp [Nat.zero_testBit] at hland

set_option maxRecDepth 8192 in
/-- Witness for C4: on the start board with knights banned, every legal
Ban-move originates off the knight bitboard. -/
theorem ban_exclusion_witness :
    (knightBanBoard.generate_legal_moves startCollab
        (fun _ => true)).all
      (fun m => ! (typeBB knightBanBoard .knight).testBit
        m.from_square) = true :=
  ban_exclusion startCollab (fun _ => true) knightBanBoard .knight rfl
    startCollab_mask (by decide)

/-- C5: outcome is CHECKMATE of the side to move exactly when check holds
and the legal-move list is empty, STALEMATE exactly when check fails and
the legal-move list is empty; and on any board with a king ban where only
the king's pieces own pseudo-legal chess moves and the mover is not in
check, the outcome is STALEMATE. -/
theorem outcome_classification (sg : Nat → Nat → List ChessMove)
    (sf : ChessMove → Bool) (ka : Bool → Bool) (b : BessBoard) :
    (GameEvaluator.outcome sg sf ka b = .CHECKMATE b.base.turn ↔
       (GameEvaluator.check ka b = true ∧
        b.generate_legal_moves sg sf = [])) ∧
    (GameEvaluator.outcome sg sf ka b = .STALEMATE ↔
       (GameEvaluator.check ka b = false ∧
        b.generate_legal_moves sg sf = [])) ∧
    (b.current_ban = some .king →
     sg (Nat.land BB_ALL b.base.pawns) BB_ALL = [] →
     sg (Nat.land BB_ALL b.base.knights) BB_ALL = [] →
     sg (Nat.land BB_ALL b.base.bishops) BB_ALL = [] →
     sg (Nat.land BB_ALL b.base.rooks) BB_ALL = [] →
     sg (Nat.land BB_ALL b.base.queens) BB_ALL = [] →
     GameEvaluator.check ka b = false →
     GameEvaluator.outcome sg sf ka b = .STALEMATE) := by
  have hmain : (GameEvaluator.outcome sg sf ka b = .CHECKMATE b.base.turn ↔
      (GameEvaluator.check ka b = true ∧
       b.generate_legal_moves sg sf = [])) ∧
      (GameEvaluator.outcome sg sf ka b = .STALEMATE ↔
        (GameEvaluator.check ka b = false ∧
         b.generate_legal_moves sg sf = [])) := by
    unfold GameEvaluator.outcome
    cases he : (b.generate_legal_moves sg sf).isEmpty <;>
      cases hc : GameEvaluator.check ka b <;>
      simp_all [List.isEmpty_iff]
  refine ⟨hmain.1, hmain.2, ?_⟩
  intro hban h1 h2 h3 h4 h5 hch
  have hp : b.generate_pseudo_legal_moves sg BB_ALL BB_ALL = [] := by
    unfold BessBoard.generate_pseudo_legal_moves
    rw [hban]
    simp [h1, h2, h3, h4, h5]
  have hl : b.generate_legal_moves sg sf = [] := by
    unfold BessBoard.generate_legal_moves
    rw [hp]
    rfl
  unfold GameEvaluator.outcome
  rw [hl, hch]
  rfl

/-- Witness for C5: the kings-only board with a king ban, where the king
alone has chess moves and the mover is not in check, is classified
STALEMATE. -/
theorem outcome_classification_witness :
    GameEvaluator.outcome kingsOnlyCollab (fun _ => true) (fun _ => false)
      kingBanBoard = .STALEMATE :=
  (outcome_classification kingsOnlyCollab (fun _ => true) (fun _ => false)
      kingBanBoard).2.2 rfl (by decide) (by decide) (by decide) (by decide)
    (by decide) rfl
